import Mathlib

/-!
Formal model of the `ClaimsProcessor` pipeline from `claims_processor.py`:
pattern-based field extraction with whitespace normalization
(`_extract_field`), keyword claim-type classification
(`_determine_claim_type`), record assembly and flattening
(`extract_from_pdf` / `flatten_extracted_data`), completeness validation
(`validate_fields`) and the routing decision engine (`route_claim`).

Python strings are modelled as Lean `String`, Python `None` as
`Option.none`, Python floats as `ℚ`, and the flattened record (a Python
dict) as an association list from field names to optional values, so that
key presence and the `dict.get` default behaviour are represented exactly.
Regular-expression matching is performed by the Python `re` library, which
is external to the repository; each regex is embedded as an abstract
matching rule `String → Option String` returning the first match's first
capturing group (the semantics of `re.search` with
`re.IGNORECASE | re.MULTILINE`).
-/

/-- Model of Python `str.lower` on a single character (ASCII case fold,
which covers every keyword used by the source). -/
def pyCharLower (c : Char) : Char :=
  if 65 ≤ c.toNat ∧ c.toNat ≤ 90 then Char.ofNat (c.toNat + 32) else c

/-- Model of Python `str.lower` (ASCII case fold). -/
def pyLowerStr (s : String) : String :=
  ⟨s.data.map pyCharLower⟩

/-- Whether the first list is an initial segment of the second. -/
def listStarts : List Char → List Char → Bool
  | [], _ => true
  | _ :: _, [] => false
  | a :: as, b :: bs => a == b && listStarts as bs

/-- Whether `sub` occurs contiguously inside the second list. -/
def listHasSub (sub : List Char) : List Char → Bool
  | [] => sub.isEmpty
  | c :: rest => listStarts sub (c :: rest) || listHasSub sub rest

/-- Model of the Python membership test `sub in s` on strings:
substring containment, not whole-word matching. -/
def pyIn (sub s : String) : Bool :=
  listHasSub sub.data s.data

/-- Model of Python `str.strip()`: remove leading and trailing
whitespace. -/
def pyStrip (s : String) : String :=
  ⟨((s.data.dropWhile Char.isWhitespace).reverse.dropWhile Char.isWhitespace).reverse⟩

/-- Model of Python `str.split()` (no separator argument): split on runs
of whitespace, discarding empty words, accumulating the current word in
reverse in `acc`. -/
def splitWSAux : List Char → List Char → List (List Char)
  | [], acc => if acc = [] then [] else [acc.reverse]
  | c :: cs, acc =>
      if c.isWhitespace then
        if acc = [] then splitWSAux cs [] else acc.reverse :: splitWSAux cs []
      else splitWSAux cs (c :: acc)

/-- Model of Python `' '.join(words)`. -/
def joinWords : List (List Char) → List Char
  | [] => []
  | [w] => w
  | w :: v :: rest => w ++ ' ' :: joinWords (v :: rest)

/-- Model of the normalization `' '.join(value.split())` from
`_extract_field`: internal whitespace runs (including embedded newlines)
collapse to single spaces and the edges are trimmed. -/
def pyNormWS (s : String) : String :=
  ⟨joinWords (splitWSAux s.data [])⟩

/-- No character of the list is whitespace. -/
def noWS (l : List Char) : Bool :=
  l.all (fun c => !c.isWhitespace)

/-- No two adjacent characters are both whitespace. -/
def noWSRun : List Char → Bool
  | [] => true
  | [_] => true
  | a :: b :: t => (!(a.isWhitespace && b.isWhitespace)) && noWSRun (b :: t)

/-- A character list is in whitespace-normal form: it neither starts nor
ends with whitespace, contains no run of two adjacent whitespace
characters, and its only whitespace character is the single space.
Padding with one space on each side turns the three run and edge
conditions into a single no-adjacent-whitespace condition. -/
def wsNormalizedChars : List Char → Bool
  | [] => true
  | l => noWSRun (' ' :: (l ++ [' '])) && l.all (fun c => !c.isWhitespace || c == ' ')

/-- A field pattern's matching rule: the document text to the first
match's first capturing group, or `none` when the pattern does not match
anywhere (`re.search` with `re.IGNORECASE | re.MULTILINE`). -/
abbrev FieldPattern := String → Option String

/-- Model of `ClaimsProcessor._extract_field(text, pattern)`: on a match,
strip and whitespace-normalize the first capturing group and return it,
or `None` when it normalizes to the empty string; `None` when the
pattern does not match. -/
def extract_field (text : String) (pattern : FieldPattern) : Option String :=
  match pattern text with
  | some g =>
      let value := pyStrip g
      let value := pyNormWS value
      if value = "" then none else some value
  | none => none

/-- The injury keyword list from `_determine_claim_type`. -/
def injury_keywords : List String :=
  ["injury", "injured", "hospital", "medical", "ambulance", "bodily"]

/-- Model of `ClaimsProcessor._determine_claim_type`: ordered,
short-circuiting keyword cascade over the case-folded document text. -/
def determine_claim_type (text : String) : String :=
  let text_lower := pyLowerStr text
  if injury_keywords.any (fun keyword => pyIn keyword text_lower) then
    "injury"
  else if pyIn "property" text_lower || pyIn "damage" text_lower then
    "property_damage"
  else if pyIn "collision" text_lower || pyIn "accident" text_lower then
    "collision"
  else
    "auto"

/-- Numeric value of a decimal digit character. -/
def digitVal (c : Char) : ℕ :=
  c.toNat - 48

/-- Value of a digit list read most-significant first. -/
def digitsToNat (l : List Char) : ℕ :=
  l.foldl (fun a c => 10 * a + digitVal c) 0

/-- Split a character list at the first decimal point, keeping the part
after it when one exists. -/
def splitAtDot : List Char → List Char × Option (List Char)
  | [] => ([], none)
  | '.' :: rest => ([], some rest)
  | c :: rest =>
      let p := splitAtDot rest
      (c :: p.1, p.2)

/-- Model of Python `float(s)` restricted to the decimal forms reachable
from the damage-estimate call site (an optional sign, digits, at most one
decimal point; the captured text contains only digits, commas and one
trailing `.dd` group, and the commas are removed before parsing).
Returns `none` where `float` raises `ValueError`, such as on the empty
string or a bare decimal point. -/
def pyFloat (s : String) : Option ℚ :=
  let cs := (pyStrip s).data
  let signBody : ℚ × List Char :=
    match cs with
    | '-' :: rest => (-1, rest)
    | '+' :: rest => (1, rest)
    | l => (1, l)
  match splitAtDot signBody.2 with
  | (ip, none) =>
      if !ip.isEmpty && ip.all Char.isDigit then
        some (signBody.1 * (digitsToNat ip : ℚ))
      else none
  | (ip, some fp) =>
      if (!ip.isEmpty || !fp.isEmpty) && ip.all Char.isDigit && fp.all Char.isDigit then
        some (signBody.1 * ((digitsToNat ip : ℚ) + (digitsToNat fp : ℚ) / (10 : ℚ) ^ fp.length))
      else none

/-- Model of `estimate.replace(',', '')`: remove every comma. -/
def removeCommas (s : String) : String :=
  ⟨s.data.filter (fun c => c != ',')⟩

/-- `ClaimsProcessor.MANDATORY_FIELDS`, in declaration order. -/
def MANDATORY_FIELDS : List String :=
  ["policy_number", "policyholder_name", "date_of_loss", "location_of_loss",
   "description_of_accident", "claim_type"]

/-- `ClaimsProcessor.FAST_TRACK_THRESHOLD`. -/
def FAST_TRACK_THRESHOLD : ℕ := 25000

/-- `ClaimsProcessor.FRAUD_KEYWORDS`. -/
def FRAUD_KEYWORDS : List String :=
  ["fraud", "inconsistent", "staged", "suspicious", "fabricated"]

/-- A value stored in the flattened record: every field is a string
except the damage estimate, which is a number (Python float, modelled as
a rational). -/
inductive FieldVal where
  | str : String → FieldVal
  | num : ℚ → FieldVal
deriving DecidableEq

/-- The `policy_information` section of the nested extraction result. -/
structure PolicyInformation where
  policy_number : Option String := none
  policyholder_name : Option String := none
  effective_date : Option String := none

/-- The `incident_information` section of the nested extraction result. -/
structure IncidentInformation where
  date_of_loss : Option String := none
  time : Option String := none
  location : Option String := none
  description : Option String := none

/-- The `involved_parties` section of the nested extraction result. -/
structure InvolvedParties where
  claimant : Option String := none
  driver_name : Option String := none
  contact_phone : Option String := none
  contact_email : Option String := none

/-- The `asset_details` section of the nested extraction result. -/
structure AssetDetails where
  asset_type : Option String := none
  asset_id : Option String := none
  vehicle_description : Option String := none
  estimated_damage : Option ℚ := none

/-- The `other_fields` section of the nested extraction result. -/
structure OtherFields where
  claim_type : Option String := none
  line_of_business : Option String := none
  naic_code : Option String := none

/-- The nested dictionary built by `extract_from_pdf`.  A Python key that
is absent or maps to `None` is `none` here; `flatten_extracted_data`
reads every key through `dict.get`, for which the two are
indistinguishable. -/
structure Extracted where
  policy_information : PolicyInformation := {}
  incident_information : IncidentInformation := {}
  involved_parties : InvolvedParties := {}
  asset_details : AssetDetails := {}
  other_fields : OtherFields := {}

/-- The abstract matching rules for the fixed regex patterns used by
`extract_from_pdf`, one per `re` call site.  `time` returns the two
capturing groups of the time pattern, and `phone` is the raw
(unnormalized) group of the direct `re.search` call for the phone
number. -/
structure Matchers where
  policy_number : FieldPattern
  policyholder_name : FieldPattern
  effective_date : FieldPattern
  date_of_loss : FieldPattern
  time : String → Option (String × String)
  street : FieldPattern
  city_state_zip : FieldPattern
  description : FieldPattern
  claimant : FieldPattern
  driver_name : FieldPattern
  phone : String → Option String
  email : FieldPattern
  vehicle_year : FieldPattern
  vehicle_make : FieldPattern
  vehicle_model : FieldPattern
  vin : FieldPattern
  estimate : FieldPattern
  lob : FieldPattern
  naic : FieldPattern

/-- Python truthiness of an optional string: `None` and the empty string
are falsy. -/
def truthyStr : Option String → Bool
  | some s => s != ""
  | none => false

/-- The location assembly from `extract_from_pdf`: collect the stripped
street and city-state-zip parts that are present and non-blank, join
them with a comma and a space, `None` when both are absent. -/
def locationOf (street city_state_zip : Option String) : Option String :=
  let p1 : List String :=
    match street with
    | some s => if s != "" && pyStrip s != "" then [pyStrip s] else []
    | none => []
  let p2 : List String :=
    match city_state_zip with
    | some s => if s != "" && pyStrip s != "" then [pyStrip s] else []
    | none => []
  let location_parts := p1 ++ p2
  if location_parts = [] then none else some (String.intercalate ", " location_parts)

/-- The vehicle description assembly from `extract_from_pdf`: when any of
year, make and model is truthy, join the truthy parts with spaces
(`' '.join(filter(None, parts))`); the key is absent otherwise. -/
def vehicleDescOf (vehicle_year vehicle_make vehicle_model : Option String) : Option String :=
  if truthyStr vehicle_year || truthyStr vehicle_make || truthyStr vehicle_model then
    some (String.intercalate " "
      (([vehicle_year, vehicle_make, vehicle_model].filterMap id).filter (fun s => s != "")))
  else none

/-- Model of the extraction body of `extract_from_pdf` given the full
document text (the pdfplumber text acquisition is external): one
`_extract_field` call per pattern, the two direct `re.search` calls for
time and phone, the location and vehicle-description assemblies, the
comma-stripping float conversion of the damage estimate (a failed parse
stores `None`), the constant asset type, and one classifier call. -/
def extract_from_text (m : Matchers) (full_text : String) : Extracted :=
  { policy_information :=
      { policy_number := extract_field full_text m.policy_number
        policyholder_name := extract_field full_text m.policyholder_name
        effective_date := extract_field full_text m.effective_date }
    incident_information :=
      { date_of_loss := extract_field full_text m.date_of_loss
        time := (m.time full_text).map (fun g => g.1 ++ " " ++ g.2)
        location := locationOf (extract_field full_text m.street)
          (extract_field full_text m.city_state_zip)
        description := extract_field full_text m.description }
    involved_parties :=
      { claimant := extract_field full_text m.claimant
        driver_name := extract_field full_text m.driver_name
        contact_phone := m.phone full_text
        contact_email := extract_field full_text m.email }
    asset_details :=
      { asset_type := some "vehicle"
        asset_id := extract_field full_text m.vin
        vehicle_description := vehicleDescOf (extract_field full_text m.vehicle_year)
          (extract_field full_text m.vehicle_make) (extract_field full_text m.vehicle_model)
        estimated_damage := (extract_field full_text m.estimate).bind
          (fun estimate => pyFloat (removeCommas estimate)) }
    other_fields :=
      { claim_type := some (determine_claim_type full_text)
        line_of_business := extract_field full_text m.lob
        naic_code := extract_field full_text m.naic } }

/-- Model of `ClaimsProcessor.flatten_extracted_data`: the flat record as
an association list, one entry per flat key in the source's assignment
order; every key is always present, holding a value or `None`. -/
def flatten_extracted_data (extracted : Extracted) : List (String × Option FieldVal) :=
  [("policy_number", extracted.policy_information.policy_number.map FieldVal.str),
   ("policyholder_name", extracted.policy_information.policyholder_name.map FieldVal.str),
   ("effective_date", extracted.policy_information.effective_date.map FieldVal.str),
   ("date_of_loss", extracted.incident_information.date_of_loss.map FieldVal.str),
   ("time_of_loss", extracted.incident_information.time.map FieldVal.str),
   ("location_of_loss", extracted.incident_information.location.map FieldVal.str),
   ("description_of_accident", extracted.incident_information.description.map FieldVal.str),
   ("claimant", extracted.involved_parties.claimant.map FieldVal.str),
   ("driver_name", extracted.involved_parties.driver_name.map FieldVal.str),
   ("contact_phone", extracted.involved_parties.contact_phone.map FieldVal.str),
   ("contact_email", extracted.involved_parties.contact_email.map FieldVal.str),
   ("asset_type", extracted.asset_details.asset_type.map FieldVal.str),
   ("asset_id", extracted.asset_details.asset_id.map FieldVal.str),
   ("vehicle_description", extracted.asset_details.vehicle_description.map FieldVal.str),
   ("estimated_damage", extracted.asset_details.estimated_damage.map FieldVal.num),
   ("claim_type", extracted.other_fields.claim_type.map FieldVal.str),
   ("line_of_business", extracted.other_fields.line_of_business.map FieldVal.str),
   ("naic_code", extracted.other_fields.naic_code.map FieldVal.str)]

/-- The 18 flat record keys, in the order `flatten_extracted_data`
assigns them. -/
def flatKeys : List String :=
  ["policy_number", "policyholder_name", "effective_date", "date_of_loss", "time_of_loss",
   "location_of_loss", "description_of_accident", "claimant", "driver_name", "contact_phone",
   "contact_email", "asset_type", "asset_id", "vehicle_description", "estimated_damage",
   "claim_type", "line_of_business", "naic_code"]

/-- Model of `d.get(key, default)` on the flat record: the stored value
(possibly `None`) when the key is present, the default only when the key
itself is absent from the dict. -/
def dictGetD (d : List (String × Option FieldVal)) (key : String)
    (dflt : Option FieldVal) : Option FieldVal :=
  match d.lookup key with
  | some v => v
  | none => dflt

/-- Python truthiness of a flat record value: `None`, the empty string
and the number zero are falsy. -/
def pyTruthy : Option FieldVal → Bool
  | none => false
  | some (FieldVal.str s) => s != ""
  | some (FieldVal.num q) => decide (q ≠ 0)

/-- Model of `ClaimsProcessor.validate_fields`: iterate the mandatory
field list in declaration order and collect the fields whose value is
falsy (the append loop is a filter that preserves order). -/
def validate_fields (flattened_data : List (String × Option FieldVal)) : List String :=
  MANDATORY_FIELDS.filter (fun field => !pyTruthy (dictGetD flattened_data field none))

/-- Group a reversed digit list into threes with commas (the fractional
helper of Python `format(n, ',')`). -/
def commaGroupRev : List Char → List Char
  | [] => []
  | [a] => [a]
  | [a, b] => [a, b]
  | [a, b, c] => [a, b, c]
  | a :: b :: c :: d :: rest => a :: b :: c :: ',' :: commaGroupRev (d :: rest)

/-- Model of the Python format `f"{n:,}"` on a natural number. -/
def formatThousands (n : ℕ) : String :=
  ⟨(commaGroupRev (Nat.toDigits 10 n).reverse).reverse⟩

/-- Model of the Python format `f"{x:,.2f}"`: two decimal places with
thousands separators (decimal rounding in place of binary float
rounding; no routing decision depends on the rendered digits). -/
def formatFloat2 (q : ℚ) : String :=
  let cents : ℤ := ⌊|q| * 100 + 1 / 2⌋
  let n : ℕ := cents.toNat
  let ip := n / 100
  let fp := n % 100
  (if q < 0 then "-" else "") ++ formatThousands ip ++ "." ++
    (if fp < 10 then "0" else "") ++ Nat.repr fp

/-- Model of `value.lower()` applied to the result of
`flattened_data.get('description_of_accident', '')`: on a string it case
folds; on `None` (the stored value when the description key is present
but extraction failed) or on a number it raises `AttributeError`. -/
def pyLower : Option FieldVal → Except String String
  | some (FieldVal.str s) => Except.ok (pyLowerStr s)
  | some (FieldVal.num _) => Except.error "AttributeError: float object has no attribute lower"
  | none => Except.error "AttributeError: NoneType object has no attribute lower"

/-- Model of `ClaimsProcessor.route_claim`: the four ordered gates with
early return.  Each return site joins a singleton `reasons` list with
semicolons, which is the single reason itself.  A raised Python
exception is `Except.error`. -/
def route_claim (flattened_data : List (String × Option FieldVal))
    (missing_fields : List String) : Except String (String × String) :=
  if missing_fields ≠ [] then
    Except.ok ("Manual Review",
      "Missing mandatory fields: " ++ String.intercalate ", " missing_fields)
  else
    match pyLower (dictGetD flattened_data "description_of_accident" (some (FieldVal.str ""))) with
    | Except.error e => Except.error e
    | Except.ok description =>
        if FRAUD_KEYWORDS.any (fun keyword => pyIn keyword description) then
          Except.ok ("Investigation Queue", "Description contains potential fraud indicators")
        else if dictGetD flattened_data "claim_type" none = some (FieldVal.str "injury") then
          Except.ok ("Specialist Queue", "Claim involves injury and requires specialist review")
        else
          match dictGetD flattened_data "estimated_damage" none with
          | some (FieldVal.num estimated_damage) =>
              if estimated_damage < (FAST_TRACK_THRESHOLD : ℚ) then
                Except.ok ("Fast-Track",
                  "Estimated damage ($" ++ formatFloat2 estimated_damage ++
                    ") is below fast-track threshold ($" ++
                    formatThousands FAST_TRACK_THRESHOLD ++ ")")
              else
                Except.ok ("Standard Processing",
                  "Estimated damage ($" ++ formatFloat2 estimated_damage ++
                    ") exceeds fast-track threshold ($" ++
                    formatThousands FAST_TRACK_THRESHOLD ++ ")")
          | some (FieldVal.str _) =>
              Except.error "TypeError: comparison of str and int not supported"
          | none =>
              Except.ok ("Manual Review", "Estimated damage amount is missing or invalid")

/-- The route label prescribed by the specification's ordered decision
list (completeness, then fraud, then injury, then damage threshold),
written from the specification's words as the refinement reference for
the routing engine.  The code's route strings stand for the
specification's enumeration: Manual Review, Investigation Queue,
Specialist Queue, Fast-Track, Standard Processing. -/
def routeSpec (e : Extracted) (missing : List String) : String :=
  if missing ≠ [] then "Manual Review"
  else if (match e.incident_information.description with
           | some d => FRAUD_KEYWORDS.any (fun k => pyIn k (pyLowerStr d))
           | none => false) then "Investigation Queue"
  else if e.other_fields.claim_type = some "injury" then "Specialist Queue"
  else
    match e.asset_details.estimated_damage with
    | some q => if q < 25000 then "Fast-Track" else "Standard Processing"
    | none => "Manual Review"

/-- A mandatory field counts as missing in the amended validation
contract exactly when its value is absent or is the empty string
(Python falsiness on an optional string). -/
def strFieldMissing : Option String → Bool
  | none => true
  | some s => s == ""

/-- A fully populated record: every mandatory field present and
non-blank, a benign description, a non-injury claim type and a damage
estimate below the threshold. -/
def eComplete : Extracted :=
  { policy_information :=
      { policy_number := some "POL-123"
        policyholder_name := some "John Smith"
        effective_date := none }
    incident_information :=
      { date_of_loss := some "01/02/2024"
        time := none
        location := some "12 Main St, Springfield, IL 62704"
        description := some "Rear end collision at low speed"
        }
    involved_parties := {}
    asset_details :=
      { asset_type := some "vehicle"
        asset_id := none
        vehicle_description := none
        estimated_damage := some 10000 }
    other_fields :=
      { claim_type := some "collision"
        line_of_business := none
        naic_code := none } }

/-- A record identical to `eComplete` except that the accident
description is absent. -/
def eNoDesc : Extracted :=
  { eComplete with incident_information :=
      { eComplete.incident_information with description := none } }

/-- A second record with an absent description: the policy number and
damage estimate differ from `eNoDesc`. -/
def eNoDescB : Extracted :=
  { eComplete with
    policy_information :=
      { eComplete.policy_information with policy_number := some "POL-999" }
    incident_information :=
      { eComplete.incident_information with description := none }
    asset_details :=
      { eComplete.asset_details with estimated_damage := some 3000 } }

/-- A record whose policy number is a whitespace-only string. -/
def eWhitespacePolicy : Extracted :=
  { eComplete with policy_information :=
      { eComplete.policy_information with policy_number := some " " } }

/-- A record with a damage estimate exactly at the 25000 threshold. -/
def eBoundary : Extracted :=
  { eComplete with asset_details :=
      { eComplete.asset_details with estimated_damage := some 25000 } }

/-- A record with no damage estimate. -/
def eNoDamage : Extracted :=
  { eComplete with asset_details :=
      { eComplete.asset_details with estimated_damage := none } }

/-- A record whose description contains a fraud keyword only as a
differently-cased fragment of a longer word. -/
def eSuspicious : Extracted :=
  { eComplete with incident_information :=
      { eComplete.incident_information with
          description := some "Driver acted Suspiciously after the crash" } }

/-- Matchers on which every pattern fails to match. -/
def mFail : Matchers :=
  { policy_number := fun _ => none
    policyholder_name := fun _ => none
    effective_date := fun _ => none
    date_of_loss := fun _ => none
    time := fun _ => none
    street := fun _ => none
    city_state_zip := fun _ => none
    description := fun _ => none
    claimant := fun _ => none
    driver_name := fun _ => none
    phone := fun _ => none
    email := fun _ => none
    vehicle_year := fun _ => none
    vehicle_make := fun _ => none
    vehicle_model := fun _ => none
    vin := fun _ => none
    estimate := fun _ => none
    lob := fun _ => none
    naic := fun _ => none }

/-- Matchers where only the damage-estimate pattern matches, capturing a
bare comma whose comma-stripped form is the empty string, on which
`float` raises `ValueError`. -/
def mWitness : Matchers :=
  { mFail with estimate := fun _ => some "," }

/-- A matching rule returning a capture with embedded newlines, tabs and
whitespace runs. -/
def wRule : FieldPattern :=
  fun _ => some "  a\n  b\t c  "

/-! ### Helper lemmas -/

/-- Looking up the policy number in a flattened record. -/
theorem flatten_get_policy_number (e : Extracted) (dflt : Option FieldVal) :
    dictGetD (flatten_extracted_data e) "policy_number" dflt
      = e.policy_information.policy_number.map FieldVal.str := rfl

/-- Looking up the policyholder name in a flattened record. -/
theorem flatten_get_policyholder_name (e : Extracted) (dflt : Option FieldVal) :
    dictGetD (flatten_extracted_data e) "policyholder_name" dflt
      = e.policy_information.policyholder_name.map FieldVal.str := rfl

/-- Looking up the date of loss in a flattened record. -/
theorem flatten_get_date_of_loss (e : Extracted) (dflt : Option FieldVal) :
    dictGetD (flatten_extracted_data e) "date_of_loss" dflt
      = e.incident_information.date_of_loss.map FieldVal.str := rfl

/-- Looking up the location in a flattened record. -/
theorem flatten_get_location (e : Extracted) (dflt : Option FieldVal) :
    dictGetD (flatten_extracted_data e) "location_of_loss" dflt
      = e.incident_information.location.map FieldVal.str := rfl

/-- Looking up the accident description in a flattened record. -/
theorem flatten_get_description (e : Extracted) (dflt : Option FieldVal) :
    dictGetD (flatten_extracted_data e) "description_of_accident" dflt
      = e.incident_information.description.map FieldVal.str := rfl

/-- Looking up the claim type in a flattened record. -/
theorem flatten_get_claim_type (e : Extracted) (dflt : Option FieldVal) :
    dictGetD (flatten_extracted_data e) "claim_type" dflt
      = e.other_fields.claim_type.map FieldVal.str := rfl

/-- Looking up the damage estimate in a flattened record. -/
theorem flatten_get_estimated_damage (e : Extracted) (dflt : Option FieldVal) :
    dictGetD (flatten_extracted_data e) "estimated_damage" dflt
      = e.asset_details.estimated_damage.map FieldVal.num := rfl

/-- Looking up the asset type in a flattened record. -/
theorem flatten_get_asset_type (e : Extracted) (dflt : Option FieldVal) :
    dictGetD (flatten_extracted_data e) "asset_type" dflt
      = e.asset_details.asset_type.map FieldVal.str := rfl

/-- A string append whose left part is non-empty is non-empty. -/
theorem str_append_ne_empty (s t : String) (hs : s ≠ "") : s ++ t ≠ "" := by
  intro hc
  have hd : s.data ++ t.data = ([] : List Char) := by
    have h2 := congrArg String.data hc
    rwa [String.data_append] at h2
  exact hs (String.ext (List.append_eq_nil.mp hd).1)

/-- Falsiness of a string-valued flat field agrees with the
absent-or-empty predicate. -/
theorem notTruthy_map_str (o : Option String) :
    (!pyTruthy (Option.map FieldVal.str o)) = strFieldMissing o := by
  cases o with
  | none => rfl
  | some s => simp [pyTruthy, strFieldMissing, bne]

/-- Evaluation of the routing engine on a flattened record with an empty
missing list and a present accident description: the three remaining
gates in order. -/
theorem route_claim_flatten_desc (e : Extracted) (d : String)
    (hd : e.incident_information.description = some d) :
    route_claim (flatten_extracted_data e) [] =
      if FRAUD_KEYWORDS.any (fun keyword => pyIn keyword (pyLowerStr d)) then
        Except.ok ("Investigation Queue", "Description contains potential fraud indicators")
      else if e.other_fields.claim_type = some "injury" then
        Except.ok ("Specialist Queue", "Claim involves injury and requires specialist review")
      else
        match e.asset_details.estimated_damage with
        | some q =>
            if q < (FAST_TRACK_THRESHOLD : ℚ) then
              Except.ok ("Fast-Track",
                "Estimated damage ($" ++ formatFloat2 q ++
                  ") is below fast-track threshold ($" ++
                  formatThousands FAST_TRACK_THRESHOLD ++ ")")
            else
              Except.ok ("Standard Processing",
                "Estimated damage ($" ++ formatFloat2 q ++
                  ") exceeds fast-track threshold ($" ++
                  formatThousands FAST_TRACK_THRESHOLD ++ ")")
        | none => Except.ok ("Manual Review", "Estimated damage amount is missing or invalid") := by
  simp only [route_claim]
  rw [if_neg (by simp : ¬ (([] : List String) ≠ []))]
  rw [flatten_get_description, hd]
  simp only [Option.map_some', pyLower]
  by_cases hf : (FRAUD_KEYWORDS.any fun keyword => pyIn keyword (pyLowerStr d)) = true
  · rw [if_pos hf]
    rw [if_pos hf]
  · rw [if_neg hf]
    rw [if_neg hf]
    rw [flatten_get_claim_type]
    have hcc : (Option.map FieldVal.str e.other_fields.claim_type
        = some (FieldVal.str "injury")) ↔ (e.other_fields.claim_type = some "injury") := by
      cases e.other_fields.claim_type <;> simp
    simp only [hcc]
    by_cases hct : e.other_fields.claim_type = some "injury"
    · rw [if_pos hct]
      rw [if_pos hct]
    · rw [if_neg hct]
      rw [if_neg hct]
      rw [flatten_get_estimated_damage]
      cases e.asset_details.estimated_damage with
      | none => rfl
      | some q => rfl

/-! ### C1 -/

/-- C1: the routing engine does NOT always succeed.  On a flattened
record whose `description_of_accident` key holds `None` (an absent
description) together with an empty missing-field list, the fraud gate
evaluates `None.lower()` and raises `AttributeError`: the `dict.get`
default applies only when the key is absent from the dict, and
`flatten_extracted_data` always stores the key.  Evaluating the model at
such an input yields the error rather than a decision. -/
theorem route_error_on_absent_description :
    route_claim (flatten_extracted_data eNoDesc) []
      = Except.error "AttributeError: NoneType object has no attribute lower" := by
  rfl

/-! ### C2 -/

/-- C2 counterexample: routing does not return a decision for every
(record, missing list) pair.  On a record with an absent accident
description and an empty missing list, `route_claim` raises instead of
returning one of the five routes with a reasoning string. -/
theorem route_not_total_on_absent_description :
    route_claim (flatten_extracted_data eNoDescB) []
      = Except.error "AttributeError: NoneType object has no attribute lower" := by
  rfl

/-- C2 (amended): for every (record, missing list) pair in which the
missing list is non-empty or the accident-description field is present,
`route_claim` returns exactly one route drawn from the five-element
enumeration together with a non-empty reasoning string, and the route is
the one prescribed by the ordered short-circuit gate priority
completeness, fraud, injury, damage threshold (`routeSpec`): an input
satisfying the conditions of two gates receives the earlier gate's
route. -/
theorem route_total_enum_ordered (e : Extracted) (missing : List String)
    (h : missing ≠ [] ∨ e.incident_information.description ≠ none) :
    ∃ reasoning, route_claim (flatten_extracted_data e) missing
        = Except.ok (routeSpec e missing, reasoning) ∧ reasoning ≠ "" ∧
      routeSpec e missing ∈ (["Manual Review", "Investigation Queue", "Specialist Queue",
        "Fast-Track", "Standard Processing"] : List String) := by
  by_cases hm : missing = []
  · subst hm
    obtain ⟨d, hd⟩ := Option.ne_none_iff_exists'.mp (h.resolve_left (by simp))
    rw [route_claim_flatten_desc e d hd, routeSpec,
      if_neg (by simp : ¬ (([] : List String) ≠ [])), hd]
    by_cases hf : (FRAUD_KEYWORDS.any fun keyword => pyIn keyword (pyLowerStr d)) = true
    · rw [if_pos hf, if_pos hf]
      exact ⟨_, rfl, by decide, by decide⟩
    · rw [if_neg hf, if_neg hf]
      by_cases hct : e.other_fields.claim_type = some "injury"
      · rw [if_pos hct, if_pos hct]
        exact ⟨_, rfl, by decide, by decide⟩
      · rw [if_neg hct, if_neg hct]
        cases e.asset_details.estimated_damage with
        | none => exact ⟨_, rfl, by decide, by decide⟩
        | some q =>
            dsimp only
            by_cases hq : q < (FAST_TRACK_THRESHOLD : ℚ)
            · rw [if_pos hq, if_pos (by simpa [FAST_TRACK_THRESHOLD] using hq)]
              exact ⟨_, rfl, str_append_ne_empty _ _ (str_append_ne_empty _ _
                (str_append_ne_empty _ _ (str_append_ne_empty _ _ (by decide)))), by decide⟩
            · rw [if_neg hq, if_neg (by simpa [FAST_TRACK_THRESHOLD] using hq)]
              exact ⟨_, rfl, str_append_ne_empty _ _ (str_append_ne_empty _ _
                (str_append_ne_empty _ _ (str_append_ne_empty _ _ (by decide)))), by decide⟩
  · rw [route_claim, routeSpec]
    rw [if_pos hm, if_pos hm]
    exact ⟨_, rfl, str_append_ne_empty _ _ (by decide), by decide⟩

/-- C2 witness: the amended routing totality theorem applied at a
concrete complete record with an empty missing list. -/
theorem route_total_enum_ordered_witness :
    ∃ reasoning, route_claim (flatten_extracted_data eComplete) []
        = Except.ok (routeSpec eComplete [], reasoning) ∧ reasoning ≠ "" ∧
      routeSpec eComplete [] ∈ (["Manual Review", "Investigation Queue", "Specialist Queue",
        "Fast-Track", "Standard Processing"] : List String) :=
  route_total_enum_ordered eComplete [] (Or.inr (by decide))

/-! ### C3 -/

/-- C3: on a record with an empty missing list, a present accident
description free of fraud keywords and a claim type other than injury,
the damage-threshold gate decides the route: a present estimate strictly
below 25000 routes to Fast-Track, a present estimate greater than or
equal to 25000 (the boundary included) routes to Standard Processing,
and an absent estimate routes to Manual Review with the reasoning that
the damage amount is missing or invalid. -/
theorem damage_threshold_routing (e : Extracted) (d : String)
    (hdesc : e.incident_information.description = some d)
    (hfraud : (FRAUD_KEYWORDS.any fun keyword => pyIn keyword (pyLowerStr d)) = false)
    (hinj : e.other_fields.claim_type ≠ some "injury") :
    (∀ q : ℚ, e.asset_details.estimated_damage = some q → q < 25000 →
        route_claim (flatten_extracted_data e) [] = Except.ok ("Fast-Track",
          "Estimated damage ($" ++ formatFloat2 q ++ ") is below fast-track threshold ($" ++
            formatThousands FAST_TRACK_THRESHOLD ++ ")")) ∧
    (∀ q : ℚ, e.asset_details.estimated_damage = some q → 25000 ≤ q →
        route_claim (flatten_extracted_data e) [] = Except.ok ("Standard Processing",
          "Estimated damage ($" ++ formatFloat2 q ++ ") exceeds fast-track threshold ($" ++
            formatThousands FAST_TRACK_THRESHOLD ++ ")")) ∧
    (e.asset_details.estimated_damage = none →
        route_claim (flatten_extracted_data e) []
          = Except.ok ("Manual Review", "Estimated damage amount is missing or invalid")) := by
  refine ⟨?_, ?_, ?_⟩
  · intro q hq hlt
    rw [route_claim_flatten_desc e d hdesc, if_neg (by simp [hfraud]), if_neg hinj, hq]
    dsimp only
    rw [if_pos (by simpa [FAST_TRACK_THRESHOLD] using hlt)]
  · intro q hq hle
    rw [route_claim_flatten_desc e d hdesc, if_neg (by simp [hfraud]), if_neg hinj, hq]
    dsimp only
    rw [if_neg (by simpa [FAST_TRACK_THRESHOLD, not_lt] using hle)]
  · intro hq
    rw [route_claim_flatten_desc e d hdesc, if_neg (by simp [hfraud]), if_neg hinj, hq]

/-- C3 witness: the boundary record with a damage estimate of exactly
25000, which routes to Standard Processing, not Fast-Track. -/
theorem damage_threshold_routing_witness :
    route_claim (flatten_extracted_data eBoundary) [] = Except.ok ("Standard Processing",
      "Estimated damage ($" ++ formatFloat2 25000 ++ ") exceeds fast-track threshold ($" ++
        formatThousands FAST_TRACK_THRESHOLD ++ ")") :=
  (damage_threshold_routing eBoundary "Rear end collision at low speed" rfl (by decide)
      (by decide)).2.1 25000 rfl (by norm_num)

/-! ### C9 -/

/-- C9: the fraud gate is case-insensitive substring containment.  On a
record with an empty missing list whose present description contains any
fraud keyword as a substring of its case-folded text, including inside a
longer word, routing returns Investigation Queue with the fixed fraud
reasoning. -/
theorem fraud_gate_substring (e : Extracted) (d k : String)
    (hdesc : e.incident_information.description = some d)
    (hk : k ∈ FRAUD_KEYWORDS) (hsub : pyIn k (pyLowerStr d) = true) :
    route_claim (flatten_extracted_data e) [] =
      Except.ok ("Investigation Queue", "Description contains potential fraud indicators") := by
  rw [route_claim_flatten_desc e d hdesc,
    if_pos (List.any_eq_true.mpr ⟨k, hk, hsub⟩)]

/-- C9 witness: a description containing the keyword suspicious only as
the differently-cased fragment of the longer word Suspiciously still
routes to Investigation Queue. -/
theorem fraud_gate_substring_witness :
    route_claim (flatten_extracted_data eSuspicious) [] =
      Except.ok ("Investigation Queue", "Description contains potential fraud indicators") :=
  fraud_gate_substring eSuspicious "Driver acted Suspiciously after the crash" "suspicious"
    rfl (by decide) (by decide)

/-! ### C4 -/

/-- Unfolding a six-element filter into a concatenation of singleton
conditionals. -/
theorem filter_six_eq_concat (p : String → Bool) (a b c d f g : String) :
    List.filter p [a, b, c, d, f, g] =
      (if p a then [a] else []) ++ (if p b then [b] else []) ++ (if p c then [c] else []) ++
      (if p d then [d] else []) ++ (if p f then [f] else []) ++ (if p g then [g] else []) := by
  by_cases ha : p a <;> by_cases hb : p b <;> by_cases hc : p c <;> by_cases hd : p d <;>
    by_cases hf : p f <;> by_cases hg : p g <;>
      simp [List.filter_cons, ha, hb, hc, hd, hf, hg]

/-- C4 counterexample: a mandatory string field whose value is the
whitespace-only string normalizes to the empty string, yet validation
does not report it missing, because the code tests Python truthiness and
a non-empty whitespace string is truthy. -/
theorem validate_whitespace_not_missing :
    pyNormWS " " = "" ∧ pyStrip " " = "" ∧
      eWhitespacePolicy.policy_information.policy_number = some " " ∧
      validate_fields (flatten_extracted_data eWhitespacePolicy) = [] := by
  refine ⟨rfl, rfl, rfl, rfl⟩

/-- C4 (amended): for every record, `validate_fields` returns exactly
the mandatory fields whose value is absent or equal to the empty string,
in the declaration order of the mandatory list; a value that is a
non-empty whitespace-only string counts as present.  A record with no
absent-or-empty mandatory field yields the empty list. -/
theorem validate_fields_exact (e : Extracted) :
    validate_fields (flatten_extracted_data e) =
      (if strFieldMissing e.policy_information.policy_number then ["policy_number"] else []) ++
      (if strFieldMissing e.policy_information.policyholder_name then ["policyholder_name"] else []) ++
      (if strFieldMissing e.incident_information.date_of_loss then ["date_of_loss"] else []) ++
      (if strFieldMissing e.incident_information.location then ["location_of_loss"] else []) ++
      (if strFieldMissing e.incident_information.description then ["description_of_accident"] else []) ++
      (if strFieldMissing e.other_fields.claim_type then ["claim_type"] else []) := by
  show List.filter _ _ = _
  rw [show MANDATORY_FIELDS = ["policy_number", "policyholder_name", "date_of_loss",
      "location_of_loss", "description_of_accident", "claim_type"] from rfl]
  rw [filter_six_eq_concat]
  simp only [flatten_get_policy_number, flatten_get_policyholder_name, flatten_get_date_of_loss,
    flatten_get_location, flatten_get_description, flatten_get_claim_type, notTruthy_map_str]

/-! ### C5 -/

/-- Prepending a non-whitespace character to a run-free list keeps it
run-free. -/
theorem noWSRun_cons (a : Char) (l : List Char) (ha : a.isWhitespace = false)
    (hl : noWSRun l = true) : noWSRun (a :: l) = true := by
  cases l with
  | nil => rfl
  | cons b t => simp [noWSRun, ha, hl]

/-- Prepending any character before a non-whitespace head keeps a
run-free list run-free. -/
theorem noWSRun_cons_cons (x a : Char) (t : List Char) (ha : a.isWhitespace = false)
    (h : noWSRun (a :: t) = true) : noWSRun (x :: a :: t) = true := by
  simp [noWSRun, ha, h]

/-- A whitespace-free list prepended to a run-free list is run-free. -/
theorem noWSRun_append (w t : List Char) (hw : noWS w = true) (ht : noWSRun t = true) :
    noWSRun (w ++ t) = true := by
  induction w with
  | nil => simpa using ht
  | cons a w ih =>
      simp only [noWS, List.all_cons, Bool.and_eq_true, Bool.not_eq_true'] at hw
      exact noWSRun_cons a (w ++ t) hw.1 (ih (by simp [noWS, hw.2]))

/-- The reverse of a whitespace-free list is whitespace-free. -/
theorem noWS_reverse_of (l : List Char) (h : noWS l = true) : noWS l.reverse = true := by
  simp only [noWS, List.all_eq_true] at h ⊢
  exact fun x hx => h x (List.mem_reverse.mp hx)

/-- A whitespace-free list satisfies the only-space character
condition. -/
theorem noWS_cond (l : List Char) (h : noWS l = true) :
    (l.all fun c => !c.isWhitespace || c == ' ') = true := by
  simp only [noWS, List.all_eq_true] at h ⊢
  intro x hx
  simp [h x hx]

/-- Every word produced by the split of Python `str.split()` is
non-empty and whitespace-free. -/
theorem splitWSAux_sound : ∀ (cs acc : List Char), noWS acc = true →
    ∀ w ∈ splitWSAux cs acc, w ≠ [] ∧ noWS w = true := by
  intro cs
  induction cs with
  | nil =>
      intro acc hacc w hw
      simp only [splitWSAux] at hw
      by_cases h : acc = []
      · simp [h] at hw
      · rw [if_neg h, List.mem_singleton] at hw
        subst hw
        exact ⟨by simpa using h, noWS_reverse_of acc hacc⟩
  | cons c cs ih =>
      intro acc hacc w hw
      simp only [splitWSAux] at hw
      by_cases hc : c.isWhitespace
      · rw [if_pos hc] at hw
        by_cases h : acc = []
        · rw [if_pos h] at hw
          exact ih [] rfl w hw
        · rw [if_neg h] at hw
          rcases List.mem_cons.mp hw with hw | hw
          · subst hw
            exact ⟨by simpa using h, noWS_reverse_of acc hacc⟩
          · exact ih [] rfl w hw
      · rw [if_neg hc] at hw
        refine ih (c :: acc) ?_ w hw
        simp only [noWS, List.all_eq_true] at hacc ⊢
        intro x hx
        rcases List.mem_cons.mp hx with rfl | hx
        · simpa using hc
        · exact hacc x hx

/-- Joining a non-empty word list with single spaces yields a non-empty
list. -/
theorem joinWords_cons_ne_nil (v : List Char) (rest : List (List Char)) (hv : v ≠ []) :
    joinWords (v :: rest) ≠ [] := by
  cases rest with
  | nil => simpa [joinWords] using hv
  | cons r rs =>
      simp only [joinWords]
      intro hcon
      rcases List.append_eq_nil.mp hcon with ⟨_, h2⟩
      exact List.cons_ne_nil _ _ h2

/-- Joining non-empty whitespace-free words with single spaces yields a
whitespace-normal character list. -/
theorem joinWords_good : ∀ ws : List (List Char),
    (∀ w ∈ ws, w ≠ [] ∧ noWS w = true) → wsNormalizedChars (joinWords ws) = true
  | [] => fun _ => rfl
  | [w] => fun h => by
      obtain ⟨hne, hws⟩ := h w (List.mem_singleton_self w)
      obtain ⟨a, t, rfl⟩ := List.exists_cons_of_ne_nil hne
      have ha : a.isWhitespace = false := by
        have := hws
        simp only [noWS, List.all_cons, Bool.and_eq_true, Bool.not_eq_true'] at this
        exact this.1
      show (noWSRun (' ' :: ((a :: t) ++ [' '])) &&
        ((a :: t).all fun c => !c.isWhitespace || c == ' ')) = true
      rw [Bool.and_eq_true]
      constructor
      · exact noWSRun_cons_cons ' ' a (t ++ [' ']) ha
          (noWSRun_append (a :: t) [' '] hws rfl)
      · exact noWS_cond _ hws
  | w :: v :: rest => fun h => by
      obtain ⟨hwne, hwws⟩ := h w (List.mem_cons_self _ _)
      have hv := h v (List.mem_cons_of_mem _ (List.mem_cons_self _ _))
      have ih := joinWords_good (v :: rest) (fun x hx => h x (List.mem_cons_of_mem _ hx))
      have hJne : joinWords (v :: rest) ≠ [] := joinWords_cons_ne_nil v rest hv.1
      obtain ⟨j, J, hJ⟩ := List.exists_cons_of_ne_nil hJne
      rw [hJ] at ih
      have ihparts : noWSRun (' ' :: ((j :: J) ++ [' '])) = true ∧
          ((j :: J).all fun c => !c.isWhitespace || c == ' ') = true := by
        have h2 : (noWSRun (' ' :: ((j :: J) ++ [' '])) &&
            ((j :: J).all fun c => !c.isWhitespace || c == ' ')) = true := ih
        rw [Bool.and_eq_true] at h2
        exact h2
      obtain ⟨a, t, rfl⟩ := List.exists_cons_of_ne_nil hwne
      have ha : a.isWhitespace = false := by
        have := hwws
        simp only [noWS, List.all_cons, Bool.and_eq_true, Bool.not_eq_true'] at this
        exact this.1
      show wsNormalizedChars (joinWords ((a :: t) :: v :: rest)) = true
      have hjoin : joinWords ((a :: t) :: v :: rest) = (a :: t) ++ ' ' :: (j :: J) := by
        simp [joinWords, hJ]
      rw [hjoin]
      show (noWSRun (' ' :: (((a :: t) ++ ' ' :: (j :: J)) ++ [' '])) &&
        (((a :: t) ++ ' ' :: (j :: J)).all fun c => !c.isWhitespace || c == ' ')) = true
      rw [Bool.and_eq_true]
      constructor
      · have hshape : ((a :: t) ++ ' ' :: (j :: J)) ++ [' ']
            = (a :: t) ++ (' ' :: ((j :: J) ++ [' '])) := by
          simp
        rw [hshape]
        exact noWSRun_cons_cons ' ' a (t ++ (' ' :: ((j :: J) ++ [' '])))
          ha (noWSRun_append (a :: t) (' ' :: ((j :: J) ++ [' '])) hwws ihparts.1)
      · rw [List.all_append]
        rw [Bool.and_eq_true]
        refine ⟨noWS_cond _ hwws, ?_⟩
        rw [List.all_cons]
        rw [Bool.and_eq_true]
        exact ⟨by decide, ihparts.2⟩

/-- The output of the whitespace normalization is whitespace-normal. -/
theorem pyNormWS_normalized (s : String) :
    wsNormalizedChars (pyNormWS s).data = true :=
  joinWords_good (splitWSAux s.data []) (splitWSAux_sound s.data [] rfl)

/-- C5: extraction contract of `_extract_field`.  The result is absent
exactly when the matching rule finds nothing or the captured group
normalizes to the empty string, and every returned value is the first
captured group stripped and whitespace-normalized: non-empty, free of
leading, trailing and doubled whitespace, with single spaces as its only
whitespace.  The function is total, so no exception escapes for a
not-found pattern. -/
theorem extract_field_contract (rule : FieldPattern) (text : String) :
    (extract_field text rule = none ↔
      rule text = none ∨ ∃ g, rule text = some g ∧ pyNormWS (pyStrip g) = "") ∧
    (∀ v, extract_field text rule = some v →
      ∃ g, rule text = some g ∧ v = pyNormWS (pyStrip g) ∧ v ≠ "" ∧
        wsNormalizedChars v.data = true) := by
  constructor
  · cases hr : rule text with
    | none => simp [extract_field, hr]
    | some g =>
        simp only [extract_field, hr]
        by_cases hg : pyNormWS (pyStrip g) = ""
        · simp [hg]
        · simp [hg]
  · intro v hv
    cases hr : rule text with
    | none => simp [extract_field, hr] at hv
    | some g =>
        simp only [extract_field, hr] at hv
        by_cases hg : pyNormWS (pyStrip g) = ""
        · rw [if_pos hg] at hv
          exact absurd hv (by simp)
        · rw [if_neg hg] at hv
          have hv2 := Option.some.inj hv
          subst hv2
          exact ⟨g, rfl, rfl, hg, pyNormWS_normalized (pyStrip g)⟩

/-- C5 witness: the contract applied to a concrete rule whose captured
group carries embedded newlines, tabs and whitespace runs; the extracted
value is the collapsed and trimmed form and it is whitespace-normal. -/
theorem extract_field_contract_witness :
    extract_field "document text" wRule = some "a b c" ∧
      wsNormalizedChars (String.data "a b c") = true := by
  have h : extract_field "document text" wRule = some "a b c" := by rfl
  obtain ⟨g, hg, hveq, hne, hnorm⟩ := (extract_field_contract wRule "document text").2 "a b c" h
  exact ⟨h, hnorm⟩

/-! ### C6 -/

/-- C6: the claim-type classifier is a short-circuiting priority cascade
over the case-folded text: injury keywords first, then property or
damage, then collision or accident, with auto as the fallback; each
outcome is characterized exactly, so injury wins over the later keyword
groups whenever both are present. -/
theorem classify_priority_cascade (text : String) :
    (determine_claim_type text = "injury" ↔
      (injury_keywords.any fun keyword => pyIn keyword (pyLowerStr text)) = true) ∧
    (determine_claim_type text = "property_damage" ↔
      (injury_keywords.any fun keyword => pyIn keyword (pyLowerStr text)) = false ∧
        (pyIn "property" (pyLowerStr text) || pyIn "damage" (pyLowerStr text)) = true) ∧
    (determine_claim_type text = "collision" ↔
      (injury_keywords.any fun keyword => pyIn keyword (pyLowerStr text)) = false ∧
        (pyIn "property" (pyLowerStr text) || pyIn "damage" (pyLowerStr text)) = false ∧
        (pyIn "collision" (pyLowerStr text) || pyIn "accident" (pyLowerStr text)) = true) ∧
    (determine_claim_type text = "auto" ↔
      (injury_keywords.any fun keyword => pyIn keyword (pyLowerStr text)) = false ∧
        (pyIn "property" (pyLowerStr text) || pyIn "damage" (pyLowerStr text)) = false ∧
        (pyIn "collision" (pyLowerStr text) || pyIn "accident" (pyLowerStr text)) = false) := by
  simp only [determine_claim_type]
  by_cases h1 : (injury_keywords.any fun keyword => pyIn keyword (pyLowerStr text)) = true
  · simp [h1]
  · have h1f : (injury_keywords.any fun keyword => pyIn keyword (pyLowerStr text)) = false := by
      simpa using h1
    by_cases h2 : (pyIn "property" (pyLowerStr text) || pyIn "damage" (pyLowerStr text)) = true
    · simp [h1f, h2]
    · have h2f : (pyIn "property" (pyLowerStr text) || pyIn "damage" (pyLowerStr text)) = false := by
        simpa using h2
      by_cases h3 : (pyIn "collision" (pyLowerStr text) || pyIn "accident" (pyLowerStr text)) = true
      · simp [h1f, h2f, h3]
      · have h3f : (pyIn "collision" (pyLowerStr text) || pyIn "accident" (pyLowerStr text)) = false := by
          simpa using h3
        simp [h1f, h2f, h3f]

/-! ### C7 -/

/-- C7: for every matchers bundle and input text, the flattened record
has exactly the 18 fixed keys, distinct and in assignment order, each
mapped to a value or to absent; and failing one single extraction (here
the accident-description rule as the exemplar) only replaces that one
key's value with absent, leaving every other entry untouched, without
aborting assembly. -/
theorem assemble_all_keys (m : Matchers) (text : String) :
    (flatten_extracted_data (extract_from_text m text)).map Prod.fst = flatKeys ∧
    flatKeys.Nodup ∧ flatKeys.length = 18 ∧
    flatten_extracted_data (extract_from_text { m with description := fun _ => none } text) =
      (flatten_extracted_data (extract_from_text m text)).map
        (fun kv => if kv.1 = "description_of_accident" then (kv.1, none) else kv) := by
  refine ⟨rfl, by decide, rfl, rfl⟩

/-! ### C8 -/

/-- C8: whenever the estimate pattern produces a captured value, the
stored damage estimate is obtained by stripping commas and parsing the
result as a decimal number, and a failed parse stores absence rather
than raising; when the pattern does not match, the field is absent; and
the rest of the record does not depend on the estimate rule at all. -/
theorem estimate_parse_graceful (m : Matchers) (text : String) :
    (∀ s, extract_field text m.estimate = some s →
        dictGetD (flatten_extracted_data (extract_from_text m text)) "estimated_damage" none
          = (pyFloat (removeCommas s)).map FieldVal.num) ∧
    (extract_field text m.estimate = none →
        dictGetD (flatten_extracted_data (extract_from_text m text)) "estimated_damage" none
          = none) ∧
    (∀ est1 est2 : FieldPattern,
      (flatten_extracted_data (extract_from_text { m with estimate := est1 } text)).filter
          (fun kv => kv.1 != "estimated_damage")
        = (flatten_extracted_data (extract_from_text { m with estimate := est2 } text)).filter
          (fun kv => kv.1 != "estimated_damage")) := by
  refine ⟨?_, ?_, fun est1 est2 => rfl⟩
  · intro s hs
    rw [flatten_get_estimated_damage]
    show (Option.bind (extract_field text m.estimate) fun estimate =>
      pyFloat (removeCommas estimate)).map FieldVal.num = _
    rw [hs]
    rfl
  · intro hs
    rw [flatten_get_estimated_damage]
    show (Option.bind (extract_field text m.estimate) fun estimate =>
      pyFloat (removeCommas estimate)).map FieldVal.num = _
    rw [hs]
    rfl

/-- C8 witness: a captured bare comma strips to the empty string, on
which the float conversion fails, and the stored damage estimate is
absent rather than an error. -/
theorem estimate_parse_graceful_witness :
    dictGetD (flatten_extracted_data (extract_from_text mWitness "")) "estimated_damage" none
      = none ∧ pyFloat (removeCommas ",") = none := by
  have h := (estimate_parse_graceful mWitness "").1 "," rfl
  exact ⟨h.trans rfl, rfl⟩

/-! ### C10 -/

/-- C10: every assembled record carries a present claim type equal to
the classifier output, which is one of exactly four strings, and a
constant asset type vehicle; consequently validation never reports the
claim-type field missing on an assembled record. -/
theorem claim_type_always_present (m : Matchers) (text : String) :
    dictGetD (flatten_extracted_data (extract_from_text m text)) "claim_type" none
        = some (FieldVal.str (determine_claim_type text)) ∧
    determine_claim_type text ∈
      (["injury", "property_damage", "collision", "auto"] : List String) ∧
    dictGetD (flatten_extracted_data (extract_from_text m text)) "asset_type" none
        = some (FieldVal.str "vehicle") ∧
    "claim_type" ∉ validate_fields (flatten_extracted_data (extract_from_text m text)) := by
  have hne : determine_claim_type text ≠ "" := by
    simp only [determine_claim_type]
    split
    · decide
    · split
      · decide
      · split
        · decide
        · decide
  refine ⟨rfl, ?_, rfl, ?_⟩
  · simp only [determine_claim_type]
    split
    · simp
    · split
      · simp
      · split
        · simp
        · simp
  · intro hmem
    have hf := (List.mem_filter.mp hmem).2
    have hct : dictGetD (flatten_extracted_data (extract_from_text m text)) "claim_type" none
        = some (FieldVal.str (determine_claim_type text)) := rfl
    rw [hct] at hf
    simp only [pyTruthy, Bool.not_eq_true'] at hf
    exact hne (by simpa using hf)
